import Mathlib

/-!
Verification of the ReadRight Streamlit application (src/streamlit_app.py).

The development shallowly embeds the adaptation-request orchestrator of the
application: dynamic Python values (dicts, lists, strings, ...) become the
inductive type `PyVal`; the network is an oracle (`HttpOutcome`) supplied per
call; fallible Python code that may raise an uncaught exception is embedded
in `Except String`, where the `.error` alternative models an uncaught Python
exception escaping the function.  Machine-level details that the program
never exercises (unicode-only whitespace classes, float rendering) are noted
at the definitions that abstract them.
-/

/-- A Python/JSON value as handled by the application: the result dicts
returned by `adapt_text` and `call_function`, parsed JSON response bodies,
and cached history/analytics payloads. -/
inductive PyVal where
  | null
  | bool (b : Bool)
  | int (n : Int)
  | str (s : String)
  | list (xs : List PyVal)
  | obj (fields : List (String × PyVal))

/-- Python truthiness (`if x:`) for the embedded values: `None`, `False`,
`0`, `""`, `[]` and `{}` are falsy, everything else is truthy. -/
def PyVal.truthy : PyVal → Bool
  | .null => false
  | .bool b => b
  | .int n => n != 0
  | .str s => s != ""
  | .list xs => !xs.isEmpty
  | .obj fields => !fields.isEmpty

/-- Dictionary lookup `d[k]` / `d.get(k)` on an embedded Python dict,
returning `none` when the key is absent. -/
def objGet (fields : List (String × PyVal)) (k : String) : Option PyVal :=
  match fields.find? (fun p => p.1 == k) with
  | some p => some p.2
  | Option.none => Option.none

/-- `{"error": msg}` — the error-result dictionaries the application builds. -/
def errObj (msg : String) : PyVal := .obj [("error", .str msg)]

/-- Python `str.strip()`: drop leading and trailing whitespace.  (Python also
strips a few rarer unicode space characters; the program only ever meets
ASCII whitespace, where the two notions agree.) -/
def pyStrip (s : String) : String :=
  ⟨((s.data.dropWhile Char.isWhitespace).reverse.dropWhile Char.isWhitespace).reverse⟩

/-- Python `str.lower()` (ASCII case folding, which is all the program uses). -/
def pyLower (s : String) : String := ⟨s.data.map Char.toLower⟩

/-- Substring test: `strContains hay needle` holds when `needle` occurs
contiguously inside `hay`; embeds Python `needle in hay`. -/
def strContains (hay needle : String) : Bool :=
  (List.range (hay.data.length + 1)).any fun i => needle.data.isPrefixOf (hay.data.drop i)

/-- Python `needle in hay` on strings. -/
def pyIn (needle hay : String) : Bool := strContains hay needle

/-- The observable part of a `requests` response: status code, body text and
the result of attempting `resp.json()` (`none` when parsing raises). -/
structure HttpResponse where
  statusCode : Nat
  text : String
  json : Option PyVal

/-- `resp.ok` in `requests`: true exactly for status codes below 400. -/
def HttpResponse.ok (r : HttpResponse) : Bool := r.statusCode < 400

/-- One network call, supplied as an oracle: either the request raised
(`requests.post`/`requests.get` threw) or a response came back. -/
inductive HttpOutcome where
  | exn (exc : String)
  | response (r : HttpResponse)

/-- `call_function` (src/streamlit_app.py lines 78-120): invoke a route on
the Supabase Edge Function and normalise the response.  The `.error`
alternative of the result models an uncaught Python exception (the
`data.get` call on a non-dict JSON body is outside every `try` block). -/
def call_function (path token : String) (body : Option PyVal) (outcome : HttpOutcome) :
    Except String PyVal :=
  match outcome with
  | .exn exc => .ok (errObj ("Failed to call function: " ++ exc))
  | .response resp =>
    match resp.json with
    | Option.none =>
      let text := pyStrip resp.text
      let text := if text == "" then "<empty response>" else text
      .ok (errObj ("Invalid JSON response (status " ++ toString resp.statusCode ++
        "). Response body: " ++ text))
    | some data =>
      if !resp.ok then
        match data with
        | .obj fields => .ok (.obj [("error", (objGet fields "error").getD data)])
        | _ => .error "AttributeError: object has no attribute get"
      else
        .ok data

/-- The adaptation configuration assembled in `main` (src/streamlit_app.py
lines 362-370).  `gradeLevel` and `aiModel` are `Option` values because
`adapt_text` reads them with `config.get(...)`, which tolerates missing
keys; the five accessibility flags are read for truthiness only. -/
structure AdaptationConfig where
  gradeLevel : Option String
  aiModel : Option String
  simplifyVocabulary : Bool
  addDefinitions : Bool
  shortParagraphs : Bool
  visualBreaks : Bool
  comprehensionQuestions : Bool
deriving DecidableEq

/-- `model_map` (src/streamlit_app.py lines 163-167). -/
def model_map : List (String × String) :=
  [("basic", "gpt-3.5-turbo"), ("advanced", "gpt-3.5-turbo"), ("premium", "gpt-4")]

/-- `model_map.get(config.get("aiModel"), "gpt-3.5-turbo")`
(src/streamlit_app.py line 168). -/
def modelMapGet (aiModel : Option String) : String :=
  match aiModel with
  | some k => ((model_map.find? (fun p => p.1 == k)).map (fun p => p.2)).getD "gpt-3.5-turbo"
  | Option.none => "gpt-3.5-turbo"

/-- The user-prompt construction of the direct path (src/streamlit_app.py
lines 170-182): sequential `+=` appends guarded by the config flags,
followed by a blank line and the raw input text. -/
def buildUserPrompt (config : AdaptationConfig) (text : String) : String :=
  let grade := config.gradeLevel.getD "3"
  let p := "Rewrite the following text for grade " ++ grade ++ " reading level."
  let p := if config.simplifyVocabulary then p ++ " Simplify vocabulary." else p
  let p := if config.addDefinitions then
    p ++ " Include brief definitions for complex words in parentheses immediately after the word."
    else p
  let p := if config.shortParagraphs then p ++ " Break the output into shorter paragraphs." else p
  let p := if config.visualBreaks then
    p ++ " Add visual breaks such as bullet points or separators where appropriate."
    else p
  let p := if config.comprehensionQuestions then
    p ++ " After the adapted text, include a few comprehension questions about the content."
    else p
  p ++ "\n\n" ++ text

/-- The fixed system prompt of the direct path (src/streamlit_app.py
lines 183-187). -/
def system_prompt : String :=
  "You are a helpful assistant that adapts educational text for teachers. " ++
  "Given a target reading grade level and a piece of text, you rewrite " ++
  "the text to match the specified grade while preserving the original meaning."

/-- Abstract stand-in for the text of a Python exception rendered with
`str(exc)` inside an f-string; the program only ever embeds it into a
longer non-empty message, so its exact content is irrelevant. -/
def excStr : String := "exception"

/-- `choices[0]["message"]["content"]` (src/streamlit_app.py line 220):
`none` models any Python exception raised by the chain of subscripts
(TypeError, KeyError, IndexError or AttributeError on `.strip`). -/
def extractAdapted (choices : PyVal) : Option String :=
  match choices with
  | .list (first :: _) =>
    match first with
    | .obj f =>
      match objGet f "message" with
      | some (.obj m) =>
        match objGet m "content" with
        | some (.str s) => some s
        | _ => Option.none
      | _ => Option.none
    | _ => Option.none
  | _ => Option.none

/-- The metadata dict built on the direct success path when the response
carries a `usage` object (src/streamlit_app.py lines 221-230): the `model`
key followed by the three token counts copied with `.get` (absent counts
become `None`). -/
def usageMeta (openai_model : String) (usageFields : List (String × PyVal)) :
    List (String × PyVal) :=
  [("model", .str openai_model),
   ("promptTokens", (objGet usageFields "prompt_tokens").getD .null),
   ("completionTokens", (objGet usageFields "completion_tokens").getD .null),
   ("totalTokens", (objGet usageFields "total_tokens").getD .null)]

/-- The body of the `try` block that processes a parsed OpenAI response
(src/streamlit_app.py lines 216-233): every exception raised inside it is
caught and turned into the "Failed to parse OpenAI response" error dict. -/
def directProcessBody (openai_model : String) (data : PyVal) : PyVal :=
  match data with
  | .obj fields =>
    let choices := (objGet fields "choices").getD (.list [])
    if !choices.truthy then errObj "OpenAI API returned no choices."
    else
      match extractAdapted choices with
      | Option.none => errObj ("Failed to parse OpenAI response: " ++ excStr)
      | some content =>
        let adapted := pyStrip content
        match objGet fields "usage" with
        | Option.none =>
          .obj [("adaptedText", .str adapted),
                ("metadata", .obj [("model", .str openai_model)])]
        | some (.obj uf) =>
          .obj [("adaptedText", .str adapted),
                ("metadata", .obj (usageMeta openai_model uf))]
        | some _ => errObj ("Failed to parse OpenAI response: " ++ excStr)
  | _ => errObj ("Failed to parse OpenAI response: " ++ excStr)

/-- The direct (OpenAI) branch of `adapt_text` (src/streamlit_app.py
lines 160-233), with the network call abstracted to an outcome oracle.
Note the source checks `resp.ok` before attempting `resp.json()`. -/
def directAdapt (text : String) (config : AdaptationConfig) (outcome : HttpOutcome) : PyVal :=
  let openai_model := modelMapGet config.aiModel
  match outcome with
  | .exn exc => errObj ("Failed to call OpenAI API: " ++ exc)
  | .response resp =>
    if !resp.ok then
      let body := if pyStrip resp.text == "" then "<empty response>" else pyStrip resp.text
      errObj ("OpenAI API error (status " ++ toString resp.statusCode ++ "): " ++ body)
    else
      match resp.json with
      | Option.none => errObj ("Failed to parse OpenAI response: " ++ excStr)
      | some data => directProcessBody openai_model data

/-- Python truthiness of the optional credential string (`if openai_key:`):
absent or empty means falsy. -/
def pyTruthyOpt (v : Option String) : Bool :=
  match v with
  | some s => s != ""
  | Option.none => false

/-- The credential lookup of `adapt_text` (src/streamlit_app.py
lines 148-158): start from the Streamlit secret (absent when secrets are
unavailable or lack the key), and fall back to the environment variable
when the secret is falsy. -/
def lookupOpenAIKey (secrets env : Option String) : Option String :=
  let openai_key := secrets
  if pyTruthyOpt openai_key then openai_key else env

/-- `if openai_key:` (src/streamlit_app.py line 160): whether a usable
direct-model credential was found. -/
def credFound (secrets env : Option String) : Bool :=
  pyTruthyOpt (lookupOpenAIKey secrets env)

/-- The two backends an adaptation request can be dispatched to. -/
inductive Backend where
  | direct
  | proxy
deriving DecidableEq

/-- Which backend a call to `adapt_text` uses, as decided by the
`if openai_key:` test on line 160 of src/streamlit_app.py. -/
def usedBackend (secrets env : Option String) : Backend :=
  if credFound secrets env then .direct else .proxy

/-- The `config` dict as serialised into the proxy request body. -/
def configToPy (c : AdaptationConfig) : PyVal :=
  .obj [("gradeLevel", match c.gradeLevel with | some g => .str g | Option.none => .null),
        ("aiModel", match c.aiModel with | some m => .str m | Option.none => .null),
        ("simplifyVocabulary", .bool c.simplifyVocabulary),
        ("addDefinitions", .bool c.addDefinitions),
        ("shortParagraphs", .bool c.shortParagraphs),
        ("visualBreaks", .bool c.visualBreaks),
        ("comprehensionQuestions", .bool c.comprehensionQuestions)]

/-- `adapt_text` (src/streamlit_app.py lines 123-235).  The credential
state (`secrets`, `env`) and the two possible network calls are explicit
per-call parameters: the source re-reads the credentials and re-decides
the backend on every invocation, caching nothing between calls. -/
def adapt_text (secrets env : Option String) (token text : String)
    (config : AdaptationConfig) (directOutcome proxyOutcome : HttpOutcome) :
    Except String PyVal :=
  if credFound secrets env then
    .ok (directAdapt text config directOutcome)
  else
    call_function "/adapt-text" token
      (some (.obj [("text", .str text), ("config", configToPy config)])) proxyOutcome

/-- `isinstance(data, dict) and data.get("error")` (src/streamlit_app.py
lines 451 and 498): the fetch result counts as an error exactly when it is
a dict whose `error` entry is truthy. -/
def isErrorDict (v : PyVal) : Bool :=
  match v with
  | .obj fields => ((objGet fields "error").getD .null).truthy
  | _ => false

/-- The analytics-cache assignment (src/streamlit_app.py lines 450-455):
on an error result the cache is set to `None`, otherwise it is replaced by
the fetched data wholesale.  The previous cache value is a parameter only
to show it is never consulted. -/
def updateAnalyticsCache (oldCache : PyVal) (data : PyVal) : PyVal :=
  if isErrorDict data then .null else data

/-- The history-cache assignment (src/streamlit_app.py lines 497-502): on
an error result the cache is set to `None`, otherwise it is replaced by
`data.get("history", [])`.  A non-dict success payload makes `data.get`
raise (modelled by `.error`). -/
def updateHistoryCache (oldCache : PyVal) (data : PyVal) : Except String PyVal :=
  if isErrorDict data then .ok .null
  else
    match data with
    | .obj fields => .ok ((objGet fields "history").getD (.list []))
    | _ => .error "AttributeError: object has no attribute get"

/-- The config snapshot stored inside a history entry, read with
`entry["config"].get(...)` (src/streamlit_app.py lines 516-518). -/
structure EntryConfig where
  gradeLevel : Option String
  aiModel : Option String
deriving DecidableEq

/-- A history entry as consumed by the filtering code (src/streamlit_app.py
lines 512-518): `originalText` and `adaptedText` are read with
`entry.get(..., "")` and so may be absent. -/
structure HistoryEntry where
  id : String
  originalText : Option String
  adaptedText : Option String
  config : EntryConfig
deriving DecidableEq

/-- The free-text condition of the history search (src/streamlit_app.py
line 514): the lowered search term occurs in the lowered original or
adapted text. -/
def searchMatches (search : String) (e : HistoryEntry) : Bool :=
  pyIn (pyLower search) (pyLower (e.originalText.getD "")) ||
  pyIn (pyLower search) (pyLower (e.adaptedText.getD ""))

/-- The three sequential filter passes over the cached history
(src/streamlit_app.py lines 512-518), each applied only when its control
is active (`if search:`, `grade_filter != "all"`, `model_filter != "all"`). -/
def filterHistory (search gradeFilter modelFilter : String)
    (entries : List HistoryEntry) : List HistoryEntry :=
  let filtered := entries
  let filtered := if search != "" then filtered.filter (searchMatches search) else filtered
  let filtered := if gradeFilter != "all" then
    filtered.filter (fun e => e.config.gradeLevel == some gradeFilter) else filtered
  let filtered := if modelFilter != "all" then
    filtered.filter (fun e => e.config.aiModel == some modelFilter) else filtered
  filtered

/-- Modelled from the spec (§4.6): one entry passes the history filters when
it satisfies the logical AND of the active filters — case-insensitive
substring match on original or adapted text, exact grade match unless the
grade filter is "all", exact model match unless the model filter is "all". -/
def matchesFilters (search gradeFilter modelFilter : String) (e : HistoryEntry) : Bool :=
  (search == "" || searchMatches search e) &&
  (gradeFilter == "all" || e.config.gradeLevel == some gradeFilter) &&
  (modelFilter == "all" || e.config.aiModel == some modelFilter)

/-- An error result in the sense of the result contract (§3 of the spec):
a dict carrying a non-empty (truthy) `error` entry. -/
def isErrorResult (v : PyVal) : Bool :=
  match v with
  | .obj fields =>
    match objGet fields "error" with
    | some e => e.truthy
    | Option.none => false
  | _ => false

/-- A success result in the sense of the result contract (§3 of the spec):
a dict carrying a string `adaptedText` and no `error` entry (the metadata
entry remains optional). -/
def isAdaptationResult (v : PyVal) : Bool :=
  match v with
  | .obj fields =>
    (match objGet fields "adaptedText" with
     | some (.str _) => true
     | _ => false) &&
    (objGet fields "error").isNone
  | _ => false

/-- Plain concatenation of a list of clause strings. -/
def concatClauses : List String → String
  | [] => ""
  | c :: cs => c ++ concatClauses cs

/-- The grade clause of the user prompt (src/streamlit_app.py line 171). -/
def gradeClause (grade : String) : String :=
  "Rewrite the following text for grade " ++ grade ++ " reading level."

/-- Modelled from the spec (§4.2): the optional clauses of the user prompt
in their fixed order — simplifyVocabulary, addDefinitions, shortParagraphs,
visualBreaks, comprehensionQuestions — each present exactly when its flag
is true.  Each clause carries its leading separator space, as emitted by
the source. -/
def flagClauses (config : AdaptationConfig) : List String :=
  (if config.simplifyVocabulary then [" Simplify vocabulary."] else []) ++
  (if config.addDefinitions then
    [" Include brief definitions for complex words in parentheses immediately after the word."]
    else []) ++
  (if config.shortParagraphs then [" Break the output into shorter paragraphs."] else []) ++
  (if config.visualBreaks then
    [" Add visual breaks such as bullet points or separators where appropriate."]
    else []) ++
  (if config.comprehensionQuestions then
    [" After the adapted text, include a few comprehension questions about the content."]
    else [])

/-- Modelled from the spec (§4.2): the user prompt as a concatenation of the
grade clause and the flag clauses in their fixed order, followed by a
blank-line separator and the raw input text verbatim. -/
def userPromptSpec (config : AdaptationConfig) (text : String) : String :=
  concatClauses (gradeClause (config.gradeLevel.getD "3") :: flagClauses config) ++
    "\n\n" ++ text

/-- First non-empty value in a list of optional strings. -/
def firstNonEmpty : List (Option String) → Option String
  | [] => Option.none
  | v :: rest =>
    match v with
    | some s => if s != "" then some s else firstNonEmpty rest
    | Option.none => firstNonEmpty rest

/-- Modelled from the spec (§4.1): the credential lookup capability — secret
store first, then the environment variable, first non-empty wins. -/
def credLookupSpec (secrets env : Option String) : Option String :=
  firstNonEmpty [secrets, env]

/-- A sample configuration used by the concrete witnesses. -/
def sampleConfig : AdaptationConfig :=
  ⟨some "2", some "premium", true, true, true, false, true⟩

/-- A sample all-flags-false configuration used by the concrete witnesses. -/
def sampleConfigPlain : AdaptationConfig :=
  ⟨some "2", some "basic", false, false, false, false, false⟩

/-- A sample parsed OpenAI success body with one choice and no usage data. -/
def sampleOpenAIBody : PyVal :=
  .obj [("choices", .list [.obj [("message", .obj [("content", .str " Hi there. ")])]])]

/-- The model identifier recorded in a success result: the `model` entry of
the result's `metadata` object, when both are present. -/
def metadataModel (fields : List (String × PyVal)) : Option PyVal :=
  match objGet fields "metadata" with
  | some (.obj mfields) => objGet mfields "model"
  | _ => Option.none

/-- The error message built for a non-success status on the direct path
(src/streamlit_app.py lines 211-214): status code plus stripped body, with
the placeholder when the stripped body is blank. -/
def openaiErrorMsg (resp : HttpResponse) : String :=
  "OpenAI API error (status " ++ toString resp.statusCode ++ "): " ++
    (if pyStrip resp.text == "" then "<empty response>" else pyStrip resp.text)

/-- The error message built for an unparsable proxy response body
(src/streamlit_app.py lines 104-114): status code plus stripped body, with
the placeholder when the stripped body is blank. -/
def invalidJsonMsg (resp : HttpResponse) : String :=
  "Invalid JSON response (status " ++ toString resp.statusCode ++ "). Response body: " ++
    (if pyStrip resp.text == "" then "<empty response>" else pyStrip resp.text)

/-- Sample history entries used by the concrete instances: two grade-2
entries of which only the first mentions "zebra" in its adapted text, and a
grade-5 entry that also mentions "zebra". -/
def sampleEntryOne : HistoryEntry :=
  ⟨"e1", some "The cat sat on the mat.", some "A Zebra runs fast.", ⟨some "2", some "basic"⟩⟩

/-- Second sample entry: grade 2, no occurrence of the search term. -/
def sampleEntryTwo : HistoryEntry :=
  ⟨"e2", some "Plain words here.", some "Simple text.", ⟨some "2", some "basic"⟩⟩

/-- Third sample entry: grade 5, search term present. -/
def sampleEntryThree : HistoryEntry :=
  ⟨"e3", some "Other text.", some "A zebra sleeps.", ⟨some "5", some "basic"⟩⟩

/-- If the character data of `hay` splits as `pre ++ mid ++ post`, then
`mid` occurs in `hay`. -/
theorem strContains_parts (hay mid : String) (pre post : List Char)
    (h : hay.data = pre ++ mid.data ++ post) : strContains hay mid = true := by
  unfold strContains
  apply List.any_eq_true.mpr
  refine ⟨pre.length, List.mem_range.mpr ?_, ?_⟩
  · rw [h]
    simp [List.length_append]
    omega
  · rw [h, List.append_assoc, List.drop_left]
    exact List.isPrefixOf_iff_prefix.mpr ⟨post, rfl⟩

/-- Appending to a string with non-empty data keeps the data non-empty. -/
theorem data_ne_nil_append (p t : String) (h : p.data ≠ []) : (p ++ t).data ≠ [] := by
  rw [String.data_append]
  intro he
  exact h (List.append_eq_nil.mp he).1

/-- A string with non-empty data is `!=`-distinct from the empty string. -/
theorem bne_empty_of_data (p : String) (h : p.data ≠ []) : (p != "") = true := by
  rw [bne_iff_ne]
  intro he
  exact h (congrArg String.data he)

/-- An append headed by a non-empty string is non-empty. -/
theorem bne_empty_litAppend (p t : String) (h : p.data ≠ []) : ((p ++ t) != "") = true :=
  bne_empty_of_data (p ++ t) (data_ne_nil_append p t h)

/-- `errObj m` is an error result exactly when its message is non-empty. -/
theorem isErrorResult_errObj (m : String) : isErrorResult (errObj m) = (m != "") := rfl

/-- `errObj m` never carries an `adaptedText` field. -/
theorem isAdaptationResult_errObj (m : String) : isAdaptationResult (errObj m) = false := rfl

/-- Every output of `directProcessBody` is the no-choices error, the parse
error, or a success dict whose metadata records the resolved model. -/
theorem directProcessBody_cases (m : String) (data : PyVal) :
    directProcessBody m data = errObj "OpenAI API returned no choices." ∨
    directProcessBody m data = errObj ("Failed to parse OpenAI response: " ++ excStr) ∨
    ∃ s mfields, directProcessBody m data =
        .obj [("adaptedText", .str s), ("metadata", .obj mfields)] ∧
      objGet mfields "model" = some (.str m) := by
  cases data with
  | obj fields =>
    simp only [directProcessBody]
    split
    · exact Or.inl rfl
    · split
      · exact Or.inr (Or.inl rfl)
      · split
        · exact Or.inr (Or.inr ⟨_, _, rfl, rfl⟩)
        · exact Or.inr (Or.inr ⟨_, _, rfl, rfl⟩)
        · exact Or.inr (Or.inl rfl)
  | null => exact Or.inr (Or.inl rfl)
  | bool b => exact Or.inr (Or.inl rfl)
  | int n => exact Or.inr (Or.inl rfl)
  | str s => exact Or.inr (Or.inl rfl)
  | list xs => exact Or.inr (Or.inl rfl)

/-- Outputs of `directProcessBody` are exactly one of error and success. -/
theorem directProcessBody_shape (m : String) (data : PyVal) :
    Bool.xor (isErrorResult (directProcessBody m data))
      (isAdaptationResult (directProcessBody m data)) = true := by
  rcases directProcessBody_cases m data with h | h | ⟨s, mfields, h, _⟩ <;> rw [h]
  · decide
  · decide
  · rfl

/-- Outputs of `directAdapt` are exactly one of error and success. -/
theorem directAdapt_shape (text : String) (config : AdaptationConfig) (outcome : HttpOutcome) :
    Bool.xor (isErrorResult (directAdapt text config outcome))
      (isAdaptationResult (directAdapt text config outcome)) = true := by
  simp only [directAdapt]
  cases outcome with
  | exn exc =>
    rw [isErrorResult_errObj, isAdaptationResult_errObj,
      bne_empty_litAppend _ _ (by decide)]
    rfl
  | response resp =>
    cases hok : resp.ok with
    | false =>
      simp only [hok, Bool.not_false, if_true]
      rw [isErrorResult_errObj, isAdaptationResult_errObj]
      rw [bne_empty_litAppend _ _ (data_ne_nil_append _ _ (data_ne_nil_append _ _ (by decide)))]
      rfl
    | true =>
      simp only [hok, Bool.not_true, Bool.false_eq_true, if_false]
      cases hj : resp.json with
      | none =>
        simp only [hj]
        decide
      | some data =>
        simp only [hj]
        exact directProcessBody_shape (modelMapGet config.aiModel) data

/-- Every output of `directAdapt` is an error dict or a success dict whose
metadata records the model resolved from the configuration. -/
theorem directAdapt_cases (text : String) (config : AdaptationConfig) (outcome : HttpOutcome) :
    (∃ msg, directAdapt text config outcome = errObj msg) ∨
    (∃ s mfields, directAdapt text config outcome =
        .obj [("adaptedText", .str s), ("metadata", .obj mfields)] ∧
      objGet mfields "model" = some (.str (modelMapGet config.aiModel))) := by
  simp only [directAdapt]
  cases outcome with
  | exn exc => exact Or.inl ⟨_, rfl⟩
  | response resp =>
    cases hok : resp.ok with
    | false =>
      simp only [hok, Bool.not_false, if_true]
      exact Or.inl ⟨_, rfl⟩
    | true =>
      simp only [hok, Bool.not_true, Bool.false_eq_true, if_false]
      cases hj : resp.json with
      | none =>
        simp only [hj]
        exact Or.inl ⟨_, rfl⟩
      | some data =>
        simp only [hj]
        rcases directProcessBody_cases (modelMapGet config.aiModel) data with h | h | ⟨s, mf, h, hm⟩
        · exact Or.inl ⟨_, h⟩
        · exact Or.inl ⟨_, h⟩
        · exact Or.inr ⟨s, mf, h, hm⟩

/-- Error dicts with a message headed by a non-empty literal are exactly on
the error side of the result dichotomy. -/
theorem xor_shape_errObj_append (p t : String) (h : p.data ≠ []) :
    Bool.xor (isErrorResult (errObj (p ++ t))) (isAdaptationResult (errObj (p ++ t))) = true := by
  rw [isErrorResult_errObj, isAdaptationResult_errObj, bne_empty_litAppend p t h]
  rfl

/-- The code's credential test agrees with the spec's first-non-empty
lookup on whether a credential exists. -/
theorem credFound_eq (a b : Option String) : credFound a b = (credLookupSpec a b).isSome := by
  cases a with
  | none =>
    cases b with
    | none => rfl
    | some e =>
      cases he : e != "" <;>
        simp [credFound, lookupOpenAIKey, pyTruthyOpt, credLookupSpec, firstNonEmpty, he]
  | some s =>
    cases hs : s != "" with
    | true =>
      simp [credFound, lookupOpenAIKey, pyTruthyOpt, credLookupSpec, firstNonEmpty, hs]
    | false =>
      cases b with
      | none =>
        simp [credFound, lookupOpenAIKey, pyTruthyOpt, credLookupSpec, firstNonEmpty, hs]
      | some e =>
        cases he : e != "" <;>
          simp [credFound, lookupOpenAIKey, pyTruthyOpt, credLookupSpec, firstNonEmpty, hs, he]

/-- When a credential is found, the code's lookup and the spec's
first-non-empty lookup return the same key. -/
theorem lookup_eq_spec (a b : Option String) (h : credFound a b = true) :
    lookupOpenAIKey a b = credLookupSpec a b := by
  cases a with
  | none =>
    cases b with
    | none => rfl
    | some e =>
      cases he : e != "" with
      | true => simp [lookupOpenAIKey, pyTruthyOpt, credLookupSpec, firstNonEmpty, he]
      | false =>
        rw [credFound_eq] at h
        simp [credLookupSpec, firstNonEmpty, he] at h
  | some s =>
    cases hs : s != "" with
    | true => simp [lookupOpenAIKey, pyTruthyOpt, credLookupSpec, firstNonEmpty, hs]
    | false =>
      cases b with
      | none =>
        rw [credFound_eq] at h
        simp [credLookupSpec, firstNonEmpty, hs] at h
      | some e =>
        cases he : e != "" with
        | true => simp [lookupOpenAIKey, pyTruthyOpt, credLookupSpec, firstNonEmpty, hs, he]
        | false =>
          rw [credFound_eq] at h
          simp [credLookupSpec, firstNonEmpty, hs, he] at h

/-- Composing three list filters equals one filter by the conjunction. -/
theorem filter3 {α : Type} (p1 p2 p3 : α → Bool) (l : List α) :
    ((l.filter p1).filter p2).filter p3 = l.filter (fun a => p1 a && p2 a && p3 a) := by
  rw [List.filter_filter, List.filter_filter]
  apply List.filter_congr
  intro a _
  cases p1 a <;> cases p2 a <;> cases p3 a <;> rfl

/-- Boolean equality is the negation of boolean disequality on strings. -/
theorem beq_eq_not_bne (s t : String) : (s == t) = !(s != t) := by
  rw [show (s != t) = !(s == t) from rfl, Bool.not_not]

/-- C1: for every call to `adapt_text`, the direct backend is chosen iff the
credential lookup (secret store first, then environment, first non-empty
wins) finds a non-empty key — and then the code's key agrees with the
spec's lookup — while otherwise the proxy backend handles the call; the
decision is a pure function of the per-call credential state (the source
re-reads credentials on every invocation and caches nothing), so toggling
credential presence between two calls flips the backend with no reset, as
the closing concrete conjuncts illustrate. -/
theorem c1_backend_selection (secrets env : Option String) (token text : String)
    (config : AdaptationConfig) (dOut pOut : HttpOutcome) :
    (usedBackend secrets env = .direct ↔ (credLookupSpec secrets env).isSome = true) ∧
    (credFound secrets env = true → lookupOpenAIKey secrets env = credLookupSpec secrets env) ∧
    (credFound secrets env = true →
      adapt_text secrets env token text config dOut pOut = .ok (directAdapt text config dOut)) ∧
    (credFound secrets env = false →
      adapt_text secrets env token text config dOut pOut =
        call_function "/adapt-text" token
          (some (.obj [("text", .str text), ("config", configToPy config)])) pOut) ∧
    usedBackend Option.none Option.none = .proxy ∧
    usedBackend Option.none (some "key") = .direct ∧
    usedBackend (some "key") Option.none = .direct := by
  refine ⟨?_, lookup_eq_spec secrets env, ?_, ?_, by decide, by decide, by decide⟩
  · rw [show usedBackend secrets env =
      (if credFound secrets env then .direct else .proxy) from rfl, credFound_eq]
    cases h : (credLookupSpec secrets env).isSome <;> simp [h]
  · intro h
    simp [adapt_text, h]
  · intro h
    simp [adapt_text, h]

/-- Witness for C1: with a secret-store key present and no environment key,
the call is handled by the direct backend. -/
theorem c1_backend_selection_witness :
    adapt_text (some "key") Option.none "tok" "txt" sampleConfig (.exn "a") (.exn "b") =
      .ok (directAdapt "txt" sampleConfig (.exn "a")) :=
  (c1_backend_selection (some "key") Option.none "tok" "txt" sampleConfig
    (.exn "a") (.exn "b")).2.2.1 (by decide)

/-- Counterexample for C2 as stated: on the proxy path, a non-success
response whose JSON body is `{"error": ""}` makes `adapt_text` return
`{"error": ""}`, which carries an empty error indicator and no
`adaptedText` — neither an ErrorResult nor an AdaptationResult. -/
theorem c2_result_shape_counterexample :
    adapt_text Option.none Option.none "tok" "txt" sampleConfig (.exn "x")
      (.response ⟨500, "", some (.obj [("error", .str "")])⟩) =
      .ok (.obj [("error", .str "")]) ∧
    isErrorResult (.obj [("error", .str "")]) = false ∧
    isAdaptationResult (.obj [("error", .str "")]) = false := by
  refine ⟨rfl, rfl, rfl⟩

/-- C2 (amended): every `.ok` value of `adapt_text` is exactly one of
ErrorResult and AdaptationResult, except that on the proxy path a
non-success status yields an object whose `error` value is copied verbatim
from the upstream JSON-object body (and may be empty), and a success
passes the parsed upstream body through unchanged under the declared trust
boundary. -/
theorem c2_result_shape (secrets env : Option String) (token text : String)
    (config : AdaptationConfig) (dOut pOut : HttpOutcome) (r : PyVal)
    (h : adapt_text secrets env token text config dOut pOut = .ok r) :
    Bool.xor (isErrorResult r) (isAdaptationResult r) = true ∨
    (credFound secrets env = false ∧ ∃ resp data, pOut = .response resp ∧
      resp.json = some data ∧
      ((resp.ok = true ∧ r = data) ∨
       (resp.ok = false ∧ ∃ fields, data = .obj fields ∧
         r = .obj [("error", (objGet fields "error").getD data)]))) := by
  cases hcred : credFound secrets env with
  | true =>
    left
    simp only [adapt_text, hcred, if_true] at h
    injection h with h
    subst h
    exact directAdapt_shape text config dOut
  | false =>
    simp only [adapt_text, hcred, Bool.false_eq_true, if_false] at h
    cases pOut with
    | exn exc =>
      left
      simp only [call_function] at h
      injection h with h
      subst h
      exact xor_shape_errObj_append _ _ (by decide)
    | response resp =>
      cases hj : resp.json with
      | none =>
        left
        simp only [call_function, hj] at h
        injection h with h
        subst h
        exact xor_shape_errObj_append _ _
          (data_ne_nil_append _ _ (data_ne_nil_append _ _ (by decide)))
      | some data =>
        cases hok : resp.ok with
        | true =>
          simp only [call_function, hj, hok, Bool.not_true, Bool.false_eq_true, if_false] at h
          injection h with h
          right
          exact ⟨rfl, resp, data, rfl, hj, Or.inl ⟨hok, h.symm⟩⟩
        | false =>
          cases data with
          | obj fields =>
            simp only [call_function, hj, hok, Bool.not_false, if_true] at h
            injection h with h
            right
            exact ⟨rfl, resp, .obj fields, rfl, hj, Or.inr ⟨hok, fields, rfl, h.symm⟩⟩
          | null => simp [call_function, hj, hok] at h
          | bool b => simp [call_function, hj, hok] at h
          | int n => simp [call_function, hj, hok] at h
          | str s => simp [call_function, hj, hok] at h
          | list xs => simp [call_function, hj, hok] at h

/-- Witness for C2: a direct-path transport failure yields a value on the
error side of the dichotomy. -/
theorem c2_result_shape_witness :
    Bool.xor (isErrorResult (errObj "Failed to call OpenAI API: boom"))
      (isAdaptationResult (errObj "Failed to call OpenAI API: boom")) = true := by
  rcases c2_result_shape (some "key") Option.none "tok" "txt" sampleConfig
      (.exn "boom") (.exn "boom") (errObj "Failed to call OpenAI API: boom") rfl with
    h | ⟨hfalse, _⟩
  · exact h
  · exact absurd hfalse (by decide)

/-- C3: for every configuration, the user prompt of the direct path is the
concatenation of the grade clause and the flag clauses in the fixed order
(each flag clause present exactly when its flag is true), followed by a
blank-line separator and the raw input text verbatim; an all-false
configuration yields only the grade clause plus the raw text. -/
theorem c3_prompt_clause_order (config : AdaptationConfig) (text : String) :
    buildUserPrompt config text = userPromptSpec config text ∧
    (config.simplifyVocabulary = false → config.addDefinitions = false →
     config.shortParagraphs = false → config.visualBreaks = false →
     config.comprehensionQuestions = false →
     buildUserPrompt config text = gradeClause (config.gradeLevel.getD "3") ++ "\n\n" ++ text) := by
  obtain ⟨g, m, f1, f2, f3, f4, f5⟩ := config
  constructor
  · cases f1 <;> cases f2 <;> cases f3 <;> cases f4 <;> cases f5 <;>
      simp [buildUserPrompt, userPromptSpec, concatClauses, flagClauses, gradeClause,
        String.append_assoc, String.append_empty]
  · intro h1 h2 h3 h4 h5
    subst h1; subst h2; subst h3; subst h4; subst h5
    rfl

/-- Witness for C3: an all-false configuration yields exactly the grade
clause, the blank line and the raw text. -/
theorem c3_prompt_clause_order_witness :
    buildUserPrompt sampleConfigPlain "Some raw text." =
      gradeClause "2" ++ "\n\n" ++ "Some raw text." ∧
    buildUserPrompt sampleConfigPlain "Some raw text." =
      userPromptSpec sampleConfigPlain "Some raw text." :=
  ⟨(c3_prompt_clause_order sampleConfigPlain "Some raw text.").2 rfl rfl rfl rfl rfl,
   (c3_prompt_clause_order sampleConfigPlain "Some raw text.").1⟩

/-- C4: `aiModel` "premium" resolves to "gpt-4" while "basic" and
"advanced" both resolve to "gpt-3.5-turbo", and every success result of the
direct path records the resolved identifier in its metadata's `model`
field. -/
theorem c4_model_resolution :
    modelMapGet (some "premium") = "gpt-4" ∧
    modelMapGet (some "basic") = "gpt-3.5-turbo" ∧
    modelMapGet (some "advanced") = "gpt-3.5-turbo" ∧
    ∀ (text : String) (config : AdaptationConfig) (outcome : HttpOutcome)
      (fields : List (String × PyVal)) (s : String),
      directAdapt text config outcome = .obj fields →
      objGet fields "adaptedText" = some (.str s) →
      metadataModel fields = some (.str (modelMapGet config.aiModel)) := by
  refine ⟨rfl, rfl, rfl, ?_⟩
  intro text config outcome fields s h1 h2
  rcases directAdapt_cases text config outcome with ⟨msg, h⟩ | ⟨s2, mf, h, hm⟩
  · rw [h] at h1
    simp only [errObj] at h1
    injection h1 with hf
    subst hf
    rw [show objGet [("error", PyVal.str msg)] "adaptedText" = Option.none from rfl] at h2
    exact Option.noConfusion h2
  · rw [h] at h1
    injection h1 with hf
    subst hf
    exact hm

/-- Witness for C4: a premium-configured success records "gpt-4" in the
metadata model field. -/
theorem c4_model_resolution_witness :
    metadataModel [("adaptedText", PyVal.str "Hi there."),
      ("metadata", PyVal.obj [("model", PyVal.str "gpt-4")])] =
      some (.str (modelMapGet sampleConfig.aiModel)) :=
  c4_model_resolution.2.2.2 "txt" sampleConfig
    (.response ⟨200, "", some sampleOpenAIBody⟩)
    [("adaptedText", PyVal.str "Hi there."),
      ("metadata", PyVal.obj [("model", PyVal.str "gpt-4")])] "Hi there." rfl rfl

/-- C5: every non-success status on the direct path yields an ErrorResult
whose message carries the status code and the stripped response body, with
the literal placeholder substituted when the stripped body is blank. -/
theorem c5_direct_status_error (text : String) (config : AdaptationConfig)
    (resp : HttpResponse) (h : resp.ok = false) :
    directAdapt text config (.response resp) = errObj (openaiErrorMsg resp) ∧
    strContains (openaiErrorMsg resp) (toString resp.statusCode) = true ∧
    strContains (openaiErrorMsg resp)
      (if pyStrip resp.text == "" then "<empty response>" else pyStrip resp.text) = true := by
  refine ⟨?_, ?_, ?_⟩
  · simp only [directAdapt, h, Bool.not_false, if_true, openaiErrorMsg]
  · apply strContains_parts _ _ ("OpenAI API error (status ".data)
      (("): " ++ (if pyStrip resp.text == "" then "<empty response>" else pyStrip resp.text)).data)
    simp [openaiErrorMsg, String.data_append, List.append_assoc]
  · apply strContains_parts _ _
      (("OpenAI API error (status " ++ toString resp.statusCode ++ "): ").data) []
    simp [openaiErrorMsg, String.data_append, List.append_assoc]

/-- Witness for C5: HTTP 500 with an empty body yields an error message
containing both "500" and "<empty response>". -/
theorem c5_direct_status_error_witness :
    directAdapt "txt" sampleConfig (.response ⟨500, "", Option.none⟩) =
      errObj "OpenAI API error (status 500): <empty response>" ∧
    strContains "OpenAI API error (status 500): <empty response>" "500" = true ∧
    strContains "OpenAI API error (status 500): <empty response>" "<empty response>" = true := by
  obtain ⟨h1, h2, h3⟩ :=
    c5_direct_status_error "txt" sampleConfig ⟨500, "", Option.none⟩ (by decide)
  exact ⟨h1, h2, h3⟩

/-- C6: every proxy response whose body fails to parse as JSON yields an
ErrorResult whose message carries the status code and the stripped raw
body, with the literal placeholder substituted when the stripped body is
blank. -/
theorem c6_proxy_invalid_json (path token : String) (body : Option PyVal)
    (resp : HttpResponse) (h : resp.json = Option.none) :
    call_function path token body (.response resp) = .ok (errObj (invalidJsonMsg resp)) ∧
    strContains (invalidJsonMsg resp) (toString resp.statusCode) = true ∧
    strContains (invalidJsonMsg resp)
      (if pyStrip resp.text == "" then "<empty response>" else pyStrip resp.text) = true := by
  refine ⟨?_, ?_, ?_⟩
  · simp only [call_function, h, invalidJsonMsg]
  · apply strContains_parts _ _ ("Invalid JSON response (status ".data)
      (("). Response body: " ++
        (if pyStrip resp.text == "" then "<empty response>" else pyStrip resp.text)).data)
    simp [invalidJsonMsg, String.data_append, List.append_assoc]
  · apply strContains_parts _ _
      (("Invalid JSON response (status " ++ toString resp.statusCode ++
        "). Response body: ").data) []
    simp [invalidJsonMsg, String.data_append, List.append_assoc]

/-- Witness for C6: a 502 response whose body " upstream error " is not
JSON yields a message containing "502" and the stripped body. -/
theorem c6_proxy_invalid_json_witness :
    call_function "/history" "tok" Option.none
      (.response ⟨502, " upstream error ", Option.none⟩) =
      .ok (errObj "Invalid JSON response (status 502). Response body: upstream error") ∧
    strContains "Invalid JSON response (status 502). Response body: upstream error"
      "502" = true ∧
    strContains "Invalid JSON response (status 502). Response body: upstream error"
      "upstream error" = true := by
  obtain ⟨h1, h2, h3⟩ :=
    c6_proxy_invalid_json "/history" "tok" Option.none
      ⟨502, " upstream error ", Option.none⟩ rfl
  exact ⟨h1, h2, h3⟩

/-- Counterexample for C7 as stated: a proxy response parsing to the JSON
array `[1]` with status 500 makes `call_function` raise an uncaught
AttributeError instead of returning an ErrorResult. -/
theorem c7_proxy_error_field_counterexample :
    call_function "/adapt-text" "tok" Option.none
      (.response ⟨500, "[1]", some (.list [.int 1])⟩) =
      .error "AttributeError: object has no attribute get" ∧
    (call_function "/adapt-text" "tok" Option.none
      (.response ⟨500, "[1]", some (.list [.int 1])⟩)).isOk = false := by
  exact ⟨rfl, rfl⟩

/-- C7 (amended): for every proxy response that parses to a JSON object and
has a non-success status, the invoker returns an ErrorResult whose error
value is the body's `error` field when present and the whole parsed body
otherwise; a non-object JSON body with non-success status instead raises an
uncaught exception. -/
theorem c7_proxy_error_field (path token : String) (body : Option PyVal)
    (resp : HttpResponse) (fields : List (String × PyVal))
    (h1 : resp.json = some (.obj fields)) (h2 : resp.ok = false) :
    call_function path token body (.response resp) =
      .ok (.obj [("error", (objGet fields "error").getD (.obj fields))]) := by
  simp only [call_function, h1, h2, Bool.not_false, if_true]

/-- Witness for C7: a 500 response with body `{"error": "boom"}` yields the
extracted error value "boom". -/
theorem c7_proxy_error_field_witness :
    call_function "/adapt-text" "tok" Option.none
      (.response ⟨500, "", some (.obj [("error", .str "boom")])⟩) =
      .ok (.obj [("error", PyVal.str "boom")]) :=
  c7_proxy_error_field "/adapt-text" "tok" Option.none
    ⟨500, "", some (.obj [("error", .str "boom")])⟩ [("error", .str "boom")] rfl (by decide)

/-- C8: whenever a history or analytics fetch returns an error result, the
corresponding cache is set to null regardless of its previous contents, so
a subsequent read finds no stale data; a successful fetch replaces the
cache wholesale (analytics with the full payload, history with the
payload's `history` list). -/
theorem c8_cache_clearing (oldAnalytics oldHistory data : PyVal) :
    (isErrorDict data = true →
      updateAnalyticsCache oldAnalytics data = .null ∧
      updateHistoryCache oldHistory data = .ok .null) ∧
    (isErrorDict data = false → updateAnalyticsCache oldAnalytics data = data) ∧
    (isErrorDict data = false → ∀ fields, data = .obj fields →
      updateHistoryCache oldHistory data =
        .ok ((objGet fields "history").getD (.list []))) := by
  refine ⟨?_, ?_, ?_⟩
  · intro h
    constructor <;> simp [updateAnalyticsCache, updateHistoryCache, h]
  · intro h
    simp [updateAnalyticsCache, h]
  · intro h fields hf
    subst hf
    simp [updateHistoryCache, h]

/-- Witness for C8: an error result clears both caches even when they held
previous data, and a successful history payload replaces the cache with its
`history` list. -/
theorem c8_cache_clearing_witness :
    (updateAnalyticsCache (PyVal.str "stale") (errObj "boom") = .null ∧
     updateHistoryCache (PyVal.str "stale") (errObj "boom") = .ok .null) ∧
    updateHistoryCache (PyVal.str "stale") (.obj [("history", .list [.str "h1"])]) =
      .ok (.list [PyVal.str "h1"]) :=
  ⟨(c8_cache_clearing (PyVal.str "stale") (PyVal.str "stale") (errObj "boom")).1 (by decide),
   (c8_cache_clearing (PyVal.str "stale") (PyVal.str "stale")
      (.obj [("history", .list [.str "h1"])])).2.2 (by decide)
      [("history", .list [.str "h1"])] rfl⟩

/-- C9: the three sequential filter passes over cached history compute
exactly the entries satisfying the logical AND of the active filters —
case-insensitive substring search over original or adapted text, exact
grade match unless the grade filter is "all", exact model match unless the
model filter is "all"; in particular, a grade filter of "2" combined with a
search term matching only one grade-2 entry's adapted text returns exactly
that entry. -/
theorem c9_history_filtering (search gradeFilter modelFilter : String)
    (entries : List HistoryEntry) :
    filterHistory search gradeFilter modelFilter entries =
      entries.filter (matchesFilters search gradeFilter modelFilter) ∧
    filterHistory "zebra" "2" "all" [sampleEntryOne, sampleEntryTwo, sampleEntryThree] =
      [sampleEntryOne] := by
  refine ⟨?_, by decide⟩
  cases hs : search != "" <;> cases hg : gradeFilter != "all" <;>
      cases hm : modelFilter != "all" <;>
    simp only [filterHistory, hs, hg, hm, Bool.false_eq_true, if_false, if_true]
  · symm
    apply List.filter_eq_self.mpr
    intro a _
    simp [matchesFilters, beq_eq_not_bne, hs, hg, hm]
  · apply List.filter_congr
    intro a _
    cases h3 : (a.config.aiModel == some modelFilter) <;>
      simp [matchesFilters, beq_eq_not_bne, hs, hg, hm, h3]
  · apply List.filter_congr
    intro a _
    cases h2 : (a.config.gradeLevel == some gradeFilter) <;>
      simp [matchesFilters, beq_eq_not_bne, hs, hg, hm, h2]
  · rw [List.filter_filter]
    apply List.filter_congr
    intro a _
    cases h2 : (a.config.gradeLevel == some gradeFilter) <;>
      cases h3 : (a.config.aiModel == some modelFilter) <;>
        simp [matchesFilters, beq_eq_not_bne, hs, hg, hm, h2, h3]
  · apply List.filter_congr
    intro a _
    cases h1 : searchMatches search a <;>
      simp [matchesFilters, beq_eq_not_bne, hs, hg, hm, h1]
  · rw [List.filter_filter]
    apply List.filter_congr
    intro a _
    cases h1 : searchMatches search a <;>
      cases h3 : (a.config.aiModel == some modelFilter) <;>
        simp [matchesFilters, beq_eq_not_bne, hs, hg, hm, h1, h3]
  · rw [List.filter_filter]
    apply List.filter_congr
    intro a _
    cases h1 : searchMatches search a <;>
      cases h2 : (a.config.gradeLevel == some gradeFilter) <;>
        simp [matchesFilters, beq_eq_not_bne, hs, hg, hm, h1, h2]
  · rw [List.filter_filter, List.filter_filter]
    apply List.filter_congr
    intro a _
    cases h1 : searchMatches search a <;>
      cases h2 : (a.config.gradeLevel == some gradeFilter) <;>
        cases h3 : (a.config.aiModel == some modelFilter) <;>
          simp [matchesFilters, beq_eq_not_bne, hs, hg, hm, h1, h2, h3]

/-- C10: any `aiModel` value outside the enumerated set — including a
missing key — silently resolves to "gpt-3.5-turbo", and the direct path
behaves identically to a "basic" configuration rather than rejecting the
value or producing an error. -/
theorem c10_unknown_model (m : Option String)
    (h1 : m ≠ some "basic") (h2 : m ≠ some "advanced") (h3 : m ≠ some "premium") :
    modelMapGet m = "gpt-3.5-turbo" ∧
    ∀ (text : String) (grade : Option String) (f1 f2 f3 f4 f5 : Bool) (outcome : HttpOutcome),
      directAdapt text ⟨grade, m, f1, f2, f3, f4, f5⟩ outcome =
        directAdapt text ⟨grade, some "basic", f1, f2, f3, f4, f5⟩ outcome := by
  have hmap : modelMapGet m = "gpt-3.5-turbo" := by
    cases m with
    | none => rfl
    | some k =>
      have hb : ("basic" == k) = false := beq_eq_false_iff_ne.mpr (fun he => h1 (by rw [← he]))
      have ha : ("advanced" == k) = false :=
        beq_eq_false_iff_ne.mpr (fun he => h2 (by rw [← he]))
      have hp : ("premium" == k) = false :=
        beq_eq_false_iff_ne.mpr (fun he => h3 (by rw [← he]))
      simp [modelMapGet, model_map, List.find?, hb, ha, hp]
  refine ⟨hmap, ?_⟩
  intro text grade f1 f2 f3 f4 f5 outcome
  simp only [directAdapt]
  rw [hmap, show modelMapGet (some "basic") = "gpt-3.5-turbo" from rfl]

/-- Witness for C10: a missing `aiModel` key and the unknown value "ultra"
both resolve to the economy model, and an "ultra" configuration is handled
exactly like a "basic" one. -/
theorem c10_unknown_model_witness :
    modelMapGet Option.none = "gpt-3.5-turbo" ∧
    modelMapGet (some "ultra") = "gpt-3.5-turbo" ∧
    directAdapt "txt" ⟨some "2", some "ultra", true, false, true, false, true⟩
        (.response ⟨500, "", Option.none⟩) =
      directAdapt "txt" ⟨some "2", some "basic", true, false, true, false, true⟩
        (.response ⟨500, "", Option.none⟩) :=
  ⟨(c10_unknown_model Option.none (by decide) (by decide) (by decide)).1,
   (c10_unknown_model (some "ultra") (by decide) (by decide) (by decide)).1,
   (c10_unknown_model (some "ultra") (by decide) (by decide) (by decide)).2
     "txt" (some "2") true false true false true (.response ⟨500, "", Option.none⟩)⟩
